import Mathlib

/-!
Verification of the Van Bill Manager repository: the template persistence
layer (`handleSaveTemplate`, `handleLoadTemplate`, the localStorage round
trip) and the offline asset cache worker (install / activate / fetch
lifecycle).  Every definition is a shallow embedding of the corresponding
TypeScript source; theorems settle the specification claims.
-/

/-! ## Data model (types.ts as used by the three App variants) -/

/-- A saved template: a name plus an ordered list of van identifier strings. -/
structure Template where
  name : String
  vans : List String
deriving Repr, DecidableEq

/-- RowData as used by `App.tsx` (no `vanOut` field). -/
structure RowDataV1 where
  id : String
  van : String
  eWaybill : String
  invoice : String
deriving Repr, DecidableEq

/-- RowData as used by the two other App variants (with `vanOut`). -/
structure RowData where
  id : String
  van : String
  vanOut : String
  eWaybill : String
  invoice : String
deriving Repr, DecidableEq

/-- JS `String.prototype.trim`, embedded structurally over the character
list: strip leading and trailing whitespace. -/
def jsTrim (s : String) : String :=
  ⟨((s.data.dropWhile Char.isWhitespace).reverse.dropWhile Char.isWhitespace).reverse⟩

/-! ## JSON values

`JSON.stringify` / `JSON.parse` are modelled at the value level: the
serialized blob stored under the localStorage key is represented by the
JSON value it denotes (for values built from strings, arrays and objects,
the platform pair stringify/parse is mutually inverse, so the text layer
is transparent). -/

/-- JSON values, restricted to the constructors the template blob uses. -/
inductive JsonVal where
  | str (s : String)
  | arr (xs : List JsonVal)
  | obj (fields : List (String × JsonVal))
deriving Repr

/-- The JSON value `JSON.stringify` produces for one template object. -/
def templateToJson (t : Template) : JsonVal :=
  .obj [("name", .str t.name), ("vans", .arr (t.vans.map .str))]

/-- The JSON value `JSON.stringify(templates)` produces for the whole blob. -/
def templatesToJson (ts : List Template) : JsonVal :=
  .arr (ts.map templateToJson)

/-- Reads a JSON string back as a Lean string. -/
def jsonToString? : JsonVal → Option String
  | .str s => some s
  | _ => none

/-- Traverses a list with an option-valued function, failing if any element
fails (explicit recursion, used by the decoders below). -/
def traverseOption (f : α → Option β) : List α → Option (List β)
  | [] => some []
  | x :: xs =>
      match f x, traverseOption f xs with
      | some y, some ys => some (y :: ys)
      | _, _ => none

/-- Reconstructs one template from its parsed JSON object, the shape the
application code assumes after `JSON.parse`. -/
def jsonToTemplate? : JsonVal → Option Template
  | .obj fields =>
      match fields.lookup "name", fields.lookup "vans" with
      | some (.str n), some (.arr vs) =>
          match traverseOption jsonToString? vs with
          | some vans => some ⟨n, vans⟩
          | none => none
      | _, _ => none
  | _ => none

/-- Reconstructs the template collection from the parsed storage blob. -/
def jsonToTemplates : JsonVal → Option (List Template)
  | .arr xs => traverseOption jsonToTemplate? xs
  | _ => none

theorem jsonToString_str_roundtrip (l : List String) :
    traverseOption jsonToString? (l.map JsonVal.str) = some l := by
  induction l with
  | nil => rfl
  | cons x xs ih => simp [traverseOption, jsonToString?, ih]

theorem jsonToTemplate_roundtrip (t : Template) :
    jsonToTemplate? (templateToJson t) = some t := by
  simp [templateToJson, jsonToTemplate?, List.lookup, jsonToString_str_roundtrip]

theorem jsonToTemplates_roundtrip (ts : List Template) :
    jsonToTemplates (templatesToJson ts) = some ts := by
  simp only [templatesToJson, jsonToTemplates]
  induction ts with
  | nil => rfl
  | cons t ts ih =>
      simp only [List.map_cons, traverseOption, jsonToTemplate_roundtrip]
      simp only [templatesToJson, jsonToTemplates] at ih
      simp [ih]

/-! ## Template store state -/

/-- The fixed localStorage key, `App.tsx` line 9. -/
def TEMPLATES_STORAGE_KEY : String := "van_bill_manager_templates"

/-- The fixed localStorage key of the second App variant (part_000 line 8). -/
def TEMPLATES_STORAGE_KEY_V2 : String := "van_bill_manager_templates"

/-- The fixed localStorage key of the third App variant (part_001 line 8). -/
def TEMPLATES_STORAGE_KEY_V3 : String := "van_bill_manager_templates"

/-- The persistence-relevant application state: the in-memory `templates`
React state and the localStorage slot under the templates key.  `storage`
holds the JSON value of the serialized blob (`none` = key absent). -/
structure AppState where
  templates : List Template
  storage : Option JsonVal
deriving Repr

/-- Result of a save interaction: the state afterwards and the list of
`alert` messages surfaced to the user, in order. -/
structure SaveResult where
  state : AppState
  alerts : List String
deriving Repr

/-- `App.tsx` lines 52-66, `handleSaveTemplate`.  `promptResult` models the
return value of `prompt` (`none` = cancelled).  Mirrors the source: the
guard `templateName && jsTrim templateName() !== ""`, the van projection
filtered of blank entries, the empty-template alert, the
filter-out-same-name-then-append update, the full-collection overwrite of
the storage slot, and the success alert. -/
def handleSaveTemplate (promptResult : Option String) (rows : List RowDataV1)
    (s : AppState) : SaveResult :=
  match promptResult with
  | none => ⟨s, []⟩
  | some templateName =>
      if templateName != "" && jsTrim templateName != "" then
        let vans := (rows.map (·.van)).filter (fun van => jsTrim van != "")
        if vans.length = 0 then
          ⟨s, ["Cannot save an empty template. Please add VANs to the table."]⟩
        else
          let newTemplate : Template := ⟨jsTrim templateName, vans⟩
          let updatedTemplates :=
            (s.templates.filter (fun t => t.name != newTemplate.name)) ++ [newTemplate]
          ⟨⟨updatedTemplates, some (templatesToJson updatedTemplates)⟩,
           ["Template \"" ++ newTemplate.name ++ "\" saved!"]⟩
      else ⟨s, []⟩

/-- part_000 lines 99-113, `handleSaveTemplate` of the second App variant
(rows carry a `vanOut` field; the logic and messages are those of the
source). -/
def handleSaveTemplateV2 (promptResult : Option String) (rows : List RowData)
    (s : AppState) : SaveResult :=
  match promptResult with
  | none => ⟨s, []⟩
  | some templateName =>
      if templateName != "" && jsTrim templateName != "" then
        let vans := (rows.map (·.van)).filter (fun van => jsTrim van != "")
        if vans.length = 0 then
          ⟨s, ["Cannot save an empty template. Please add VANs to the table."]⟩
        else
          let newTemplate : Template := ⟨jsTrim templateName, vans⟩
          let updatedTemplates :=
            (s.templates.filter (fun t => t.name != newTemplate.name)) ++ [newTemplate]
          ⟨⟨updatedTemplates, some (templatesToJson updatedTemplates)⟩,
           ["Template \"" ++ newTemplate.name ++ "\" saved!"]⟩
      else ⟨s, []⟩

/-- part_001 lines 116-130, `handleSaveTemplate` of the third App variant
(same logic; the empty-template alert text is shorter in this source). -/
def handleSaveTemplateV3 (promptResult : Option String) (rows : List RowData)
    (s : AppState) : SaveResult :=
  match promptResult with
  | none => ⟨s, []⟩
  | some templateName =>
      if templateName != "" && jsTrim templateName != "" then
        let vans := (rows.map (·.van)).filter (fun van => jsTrim van != "")
        if vans.length = 0 then
          ⟨s, ["Cannot save an empty template."]⟩
        else
          let newTemplate : Template := ⟨jsTrim templateName, vans⟩
          let updatedTemplates :=
            (s.templates.filter (fun t => t.name != newTemplate.name)) ++ [newTemplate]
          ⟨⟨updatedTemplates, some (templatesToJson updatedTemplates)⟩,
           ["Template \"" ++ newTemplate.name ++ "\" saved!"]⟩
      else ⟨s, []⟩

/-- part_000 lines 115-136, `handleLoadTemplate`.  `templateName` is the
select value, `confirmAnswer` models `window.confirm`, and `freshId` models
`crypto.randomUUID` as an indexed supply of fresh identifiers (the i-th
generated id is `freshId i`).  Returns the row list afterwards. -/
def handleLoadTemplate (templateName : String) (confirmAnswer : Bool)
    (freshId : Nat → String) (templates : List Template)
    (rows : List RowData) : List RowData :=
  if templateName = "" then rows
  else if rows.length > 0 && !confirmAnswer then rows
  else
    match templates.find? (fun t => t.name == templateName) with
    | some template =>
        template.vans.enum.map (fun p => ⟨freshId p.1, p.2, "", "", ""⟩)
    | none => rows

/-- `App.tsx` lines 29-38, the mount-time `useEffect`: read the storage
slot; if present, parse it into the `templates` state, starting from the
initial `[]`.  A parse failure is caught (logged) and leaves the initial
empty state; a parsed blob of the template shape yields its collection. -/
def initTemplates (storage : Option JsonVal) : List Template :=
  match storage with
  | none => []
  | some j =>
      match jsonToTemplates j with
      | some ts => ts
      | none => []

/-! ## Offline asset cache worker (part_001 lines 486-555) -/

/-- part_001 line 486: the version-tagged cache container name. -/
def CACHE_NAME : String := "van-bill-manager-v7"

/-- part_001 lines 487-496: the fixed asset manifest. -/
def URLS_TO_CACHE : List String :=
  ["/", "/index.html", "/index.tsx", "/App.tsx", "/types.ts",
   "/components/icons.tsx", "https://cdn.tailwindcss.com",
   "https://cdnjs.cloudflare.com/ajax/libs/html-to-image/1.11.11/html-to-image.min.js"]

/-- An HTTP response as the worker observes it (`status`, `type` — here
`rtype` — and an opaque body). -/
structure SWResponse where
  status : Nat
  rtype : String
  body : String
deriving Repr, DecidableEq

/-- The content of one cache container: an association list from request
URL to stored response. -/
abbrev Cache := List (String × SWResponse)

/-- The network: `none` models a rejected fetch (offline / unreachable). -/
abbrev Net := String → Option SWResponse

/-- `cache.addAll(urls)` per the Cache API: every URL is fetched, and the
responses are committed as one atomic batch.  If any individual fetch
fails, the returned promise rejects and no entry is added. -/
def cacheAddAll (net : Net) (urls : List String) (cache : Cache) :
    Except String Cache :=
  match traverseOption (fun u => (net u).map (fun r => (u, r))) urls with
  | some entries => .ok (cache ++ entries)
  | none => .error "addAll rejected: a request failed"

/-- Outcome of the install phase: the container content afterwards,
whether the install itself failed, and the errors logged. -/
structure InstallResult where
  cache : Cache
  installFailed : Bool
  loggedErrors : List String
deriving Repr

/-- part_001 lines 498-507, the `install` listener:
`caches.open(CACHE_NAME)` then `cache.addAll(URLS_TO_CACHE)` with a
`.catch` that only logs — so a rejected `addAll` leaves the container as
it was, the error is logged, and the install still succeeds. -/
def installHandler (net : Net) (cache : Cache) : InstallResult :=
  match cacheAddAll net URLS_TO_CACHE cache with
  | .ok c => ⟨c, false, []⟩
  | .error e => ⟨cache, false, ["Cache addAll failed: " ++ e]⟩

/-- part_001 lines 509-523, the `activate` listener: enumerate all cache
container names and delete every one not in the whitelist `[CACHE_NAME]`.
Returns the names of the containers that remain. -/
def activateHandler (cacheNames : List String) : List String :=
  cacheNames.filter (fun cacheName => [CACHE_NAME].contains cacheName)

/-- One observable effect of a fetch interception, in execution order. -/
inductive SWEffect where
  | cacheMatch (url : String)
  | netFetch (url : String)
  | cachePut (url : String) (response : SWResponse)
deriving Repr, DecidableEq

/-- Replays a trace of effects against a cache container: only `cachePut`
changes the container. -/
def applyEffects (effects : List SWEffect) (cache : Cache) : Cache :=
  match effects with
  | [] => cache
  | .cachePut url r :: rest => applyEffects rest ((url, r) :: cache)
  | _ :: rest => applyEffects rest cache

/-- part_001 lines 526-535, the navigation branch of the `fetch` listener:
network first; the `.catch` returns
`caches.match('/index.html') || caches.match('/')`.  `caches.match`
returns a Promise, which is a truthy object, so the `||` always selects
its first operand and `caches.match('/')` is never consulted; awaiting the
selected promise gives the cached `/index.html` entry or `undefined`
(modelled `none`, which `respondWith` surfaces as a network error).
Returns the response together with the trace of effects performed. -/
def navigationFetch (net : Net) (cache : Cache) (url : String) :
    Option SWResponse × List SWEffect :=
  match net url with
  | some r => (some r, [.netFetch url])
  | none => (cache.lookup "/index.html", [.netFetch url, .cacheMatch "/index.html"])

/-- part_001 lines 538-554, the non-navigation branch of the `fetch`
listener: `caches.match(request)` first; a hit is returned immediately,
otherwise the request is fetched from the network.  The
`status !== 200 || type !== 'basic'` check of the source returns the
response in both arms and is mirrored as written. -/
def nonNavigationFetch (net : Net) (cache : Cache) (url : String) :
    Option SWResponse × List SWEffect :=
  match cache.lookup url with
  | some response => (some response, [.cacheMatch url])
  | none =>
      match net url with
      | some response =>
          if response.status != 200 || response.rtype != "basic" then
            (some response, [.cacheMatch url, .netFetch url])
          else
            (some response, [.cacheMatch url, .netFetch url])
      | none => (none, [.cacheMatch url, .netFetch url])

/-- A request as the fetch listener inspects it: its URL and its mode
(`"navigate"` for top-level page loads). -/
structure FetchRequest where
  url : String
  mode : String
deriving Repr, DecidableEq

/-- part_001 lines 525-555, the whole `fetch` listener: dispatch on
`event.request.mode === 'navigate'`. -/
def fetchHandler (net : Net) (cache : Cache) (req : FetchRequest) :
    Option SWResponse × List SWEffect :=
  if req.mode = "navigate" then navigationFetch net cache req.url
  else nonNavigationFetch net cache req.url

/-! ## Helper lemmas -/

theorem traverseOption_isSome (f : α → Option β) (l : List α)
    (h : ∀ a ∈ l, (f a).isSome) :
    ∃ ys, traverseOption f l = some ys ∧
      ∀ a ∈ l, ∀ b, f a = some b → b ∈ ys := by
  induction l with
  | nil => exact ⟨[], rfl, by simp⟩
  | cons x xs ih =>
      obtain ⟨y, hy⟩ := Option.isSome_iff_exists.mp (h x (by simp))
      obtain ⟨ys, hys, hmem⟩ := ih (fun a ha => h a (by simp [ha]))
      refine ⟨y :: ys, by simp [traverseOption, hy, hys], ?_⟩
      intro a ha b hb
      rcases List.mem_cons.mp ha with rfl | ha
      · simp [hy] at hb; simp [hb]
      · exact List.mem_cons_of_mem _ (hmem a ha b hb)

theorem traverseOption_eq_none (f : α → Option β) (l : List α)
    (h : ∃ a ∈ l, f a = none) : traverseOption f l = none := by
  induction l with
  | nil => simp at h
  | cons x xs ih =>
      obtain ⟨a, ha, hfa⟩ := h
      rcases List.mem_cons.mp ha with rfl | ha
      · simp [traverseOption, hfa]
      · have := ih ⟨a, ha, hfa⟩
        unfold traverseOption
        rw [this]
        cases f x <;> rfl

/-! ## Concrete fixtures for counterexamples and witnesses -/

/-- A concrete app-shell document response. -/
def shellDoc : SWResponse := ⟨200, "basic", "app shell"⟩

/-- A network that rejects every request (offline). -/
def offlineNet : Net := fun _ => none

/-- A network on which only the root URL is reachable. -/
def rootOnlyNet : Net := fun u => if u = "/" then some shellDoc else none

/-- A network on which every request succeeds with the shell document. -/
def allShellNet : Net := fun _ => some shellDoc

/-! ## Claim C1 -/

/-- C1 (code bug): with the root document `/` cached but `/index.html` not
cached, a navigation request whose network fetch fails yields no response
at all — not the cached root document.  The source's fallback
`caches.match('/index.html') || caches.match('/')` never consults `/`
because a Promise object is always truthy, so the claimed index-else-root
fallback chain does not hold. -/
theorem navigation_fetch_root_only_cached_yields_no_response :
    (fetchHandler offlineNet [("/", shellDoc)] ⟨"/page", "navigate"⟩).1 = none ∧
    List.lookup "/" [("/", shellDoc)] = some shellDoc := by
  exact ⟨rfl, rfl⟩

/-! ## Claim C2 -/

/-- C2 counterexample: on a network where the manifest entry `/` fetches
successfully but another manifest entry fails, the install caches nothing
at all — the successfully fetched entry is not cached, refuting per-item
failure tolerance (the install itself still succeeds). -/
theorem install_partial_failure_caches_nothing :
    (installHandler rootOnlyNet []).cache = [] ∧
    rootOnlyNet "/" = some shellDoc ∧
    rootOnlyNet "/index.html" = none ∧
    "/" ∈ URLS_TO_CACHE ∧ "/index.html" ∈ URLS_TO_CACHE ∧
    (installHandler rootOnlyNet []).installFailed = false := by
  refine ⟨rfl, rfl, rfl, by decide, by decide, rfl⟩

/-- C2 amended: the install never fails and a caching failure is only
logged, but population is a single atomic `addAll` batch: when every
manifest URL fetches successfully each fetched entry ends up in the cache,
while if any manifest URL fails to fetch, no entry is added at all (the
container is left unchanged) and an error is logged. -/
theorem install_addAll_batch_semantics (net : Net) (cache : Cache) :
    (installHandler net cache).installFailed = false ∧
    ((∀ u ∈ URLS_TO_CACHE, (net u).isSome) →
      ∀ u ∈ URLS_TO_CACHE, ∀ r, net u = some r →
        (u, r) ∈ (installHandler net cache).cache) ∧
    ((∃ u ∈ URLS_TO_CACHE, net u = none) →
      (installHandler net cache).cache = cache ∧
      (installHandler net cache).loggedErrors ≠ []) := by
  refine ⟨?_, ?_, ?_⟩
  · unfold installHandler
    cases cacheAddAll net URLS_TO_CACHE cache <;> rfl
  · intro hall u hu r hr
    obtain ⟨ys, hys, hmem⟩ :=
      traverseOption_isSome (fun u => (net u).map (fun r => (u, r))) URLS_TO_CACHE
        (fun a ha => by
          obtain ⟨r, hr⟩ := Option.isSome_iff_exists.mp (hall a ha)
          simp [hr])
    have hin : (u, r) ∈ ys := hmem u hu (u, r) (by simp [hr])
    simp [installHandler, cacheAddAll, hys, hin]
  · intro ⟨u, hu, hnone⟩
    have : traverseOption (fun u => (net u).map (fun r => (u, r))) URLS_TO_CACHE = none :=
      traverseOption_eq_none _ _ ⟨u, hu, by simp [hnone]⟩
    simp [installHandler, cacheAddAll, this]

/-- Witness for `install_addAll_batch_semantics` on a fully reachable
network: the root entry is cached and the install succeeds. -/
theorem install_addAll_batch_semantics_witness :
    ("/", shellDoc) ∈ (installHandler allShellNet []).cache ∧
    (installHandler allShellNet []).installFailed = false :=
  ⟨(install_addAll_batch_semantics allShellNet []).2.1
      (fun _ _ => rfl) "/" (by decide) shellDoc rfl,
   (install_addAll_batch_semantics allShellNet []).1⟩

/-! ## Claim C6 -/

/-- C6: after the activate phase, every container whose name differs from
the current version tag `CACHE_NAME` is gone, every surviving container is
named `CACHE_NAME`, and (container names being unique) at most one
container remains. -/
theorem activate_deletes_stale_caches (cacheNames : List String)
    (hnd : cacheNames.Nodup) :
    (∀ n ∈ activateHandler cacheNames, n = CACHE_NAME) ∧
    (∀ n ∈ cacheNames, n ≠ CACHE_NAME → n ∉ activateHandler cacheNames) ∧
    (activateHandler cacheNames).length ≤ 1 := by
  have hmem : ∀ n ∈ activateHandler cacheNames, n = CACHE_NAME := by
    intro n hn
    have := (List.mem_filter.mp hn).2
    simpa using this
  refine ⟨hmem, ?_, ?_⟩
  · intro n _ hne hcontra
    exact hne (hmem n hcontra)
  · have hsub : activateHandler cacheNames ⊆ [CACHE_NAME] := by
      intro n hn
      simp [hmem n hn]
    have hnodup : (activateHandler cacheNames).Nodup := hnd.filter _
    have := (hnodup.subperm hsub).length_le
    simpa using this

/-- Witness for `activate_deletes_stale_caches` on a concrete set of
containers: the stale v6 container is removed and only the current one
can remain. -/
theorem activate_deletes_stale_caches_witness :
    "van-bill-manager-v6" ∉
      activateHandler ["van-bill-manager-v6", "van-bill-manager-v7", "other"] ∧
    (activateHandler ["van-bill-manager-v6", "van-bill-manager-v7", "other"]).length ≤ 1 := by
  have h := activate_deletes_stale_caches
    ["van-bill-manager-v6", "van-bill-manager-v7", "other"] (by decide)
  exact ⟨h.2.1 "van-bill-manager-v6" (by decide) (by decide), h.2.2⟩

/-! ## Claim C7 -/

/-- C7: a non-navigation request whose response is in the cache is
answered from the cache and its effect trace contains no network fetch;
only on a cache miss does the trace contain a network fetch for the
request. -/
theorem non_navigation_cache_first (net : Net) (cache : Cache)
    (req : FetchRequest) (hmode : req.mode ≠ "navigate") :
    (∀ r, cache.lookup req.url = some r →
        (fetchHandler net cache req).1 = some r ∧
        ∀ u, SWEffect.netFetch u ∉ (fetchHandler net cache req).2) ∧
    (cache.lookup req.url = none →
        SWEffect.netFetch req.url ∈ (fetchHandler net cache req).2) := by
  unfold fetchHandler
  rw [if_neg hmode]
  constructor
  · intro r hr
    unfold nonNavigationFetch
    rw [hr]
    exact ⟨rfl, by intro u; simp⟩
  · intro hr
    unfold nonNavigationFetch
    rw [hr]
    cases net req.url with
    | none => simp
    | some response =>
        by_cases hb : (response.status != 200 || response.rtype != "basic") = true
        · simp [hb]
        · simp [hb]

/-- Witness for `non_navigation_cache_first`: a cached script request is
served from the cache with no network fetch in its trace. -/
theorem non_navigation_cache_first_witness :
    (fetchHandler offlineNet [("/App.tsx", shellDoc)] ⟨"/App.tsx", "no-cors"⟩).1
      = some shellDoc ∧
    SWEffect.netFetch "/App.tsx" ∉
      (fetchHandler offlineNet [("/App.tsx", shellDoc)] ⟨"/App.tsx", "no-cors"⟩).2 := by
  have h := (non_navigation_cache_first offlineNet [("/App.tsx", shellDoc)]
      ⟨"/App.tsx", "no-cors"⟩ (by decide)).1 shellDoc (by decide)
  exact ⟨h.1, h.2 "/App.tsx"⟩

/-! ## Claim C8 -/

/-- C8: the fetch listener performs no cache write at all: no `cachePut`
effect ever appears in its trace, and replaying the trace against any
cache container leaves the container unchanged (only the install phase
populates the cache). -/
theorem fetch_handler_never_writes_cache (net : Net) (cache : Cache)
    (req : FetchRequest) :
    (∀ u r, SWEffect.cachePut u r ∉ (fetchHandler net cache req).2) ∧
    applyEffects (fetchHandler net cache req).2 cache = cache := by
  unfold fetchHandler
  by_cases hmode : req.mode = "navigate"
  · rw [if_pos hmode]
    unfold navigationFetch
    cases net req.url with
    | none => exact ⟨by intro u r; simp, rfl⟩
    | some r => exact ⟨by intro u r; simp, rfl⟩
  · rw [if_neg hmode]
    unfold nonNavigationFetch
    cases hc : cache.lookup req.url with
    | some r => exact ⟨by intro u r; simp, rfl⟩
    | none =>
        cases net req.url with
        | none => exact ⟨by intro u r; simp, rfl⟩
        | some response =>
            constructor
            · intro u r
              simp [ite_self]
            · simp [ite_self, applyEffects]

/-! ## Claim C3 -/

/-- C3: a save with a valid name and at least one non-blank van, where a
template with the same trimmed name already exists, is an upsert: the
resulting collection is the old one with every same-named template removed
and the new template appended, so exactly one template with that name
survives (the newly saved one), it sits at the end of the list, and all
other templates keep their relative order. -/
theorem save_template_upsert_append (s : AppState) (name : String)
    (rows : List RowDataV1)
    (hname : jsTrim name ≠ "")
    (hvans : (rows.map (·.van)).filter (fun van => jsTrim van != "") ≠ [])
    (hex : ∃ t ∈ s.templates, t.name = jsTrim name) :
    (handleSaveTemplate (some name) rows s).state.templates
        = s.templates.filter (fun t => t.name != jsTrim name)
            ++ [⟨jsTrim name, (rows.map (·.van)).filter (fun van => jsTrim van != "")⟩] ∧
    ((handleSaveTemplate (some name) rows s).state.templates.filter
        (fun t => t.name == jsTrim name))
        = [⟨jsTrim name, (rows.map (·.van)).filter (fun van => jsTrim van != "")⟩] ∧
    ((handleSaveTemplate (some name) rows s).state.templates).getLast?
        = some ⟨jsTrim name, (rows.map (·.van)).filter (fun van => jsTrim van != "")⟩ ∧
    ((handleSaveTemplate (some name) rows s).state.templates.filter
        (fun t => t.name != jsTrim name))
        = s.templates.filter (fun t => t.name != jsTrim name) := by
  have hne : name ≠ "" := by
    intro h
    subst h
    exact hname (by decide)
  have hguard : (name != "" && jsTrim name != "") = true := by
    simp [hne, hname]
  have hlen : ¬((rows.map (·.van)).filter (fun van => jsTrim van != "")).length = 0 := by
    simpa [List.length_eq_zero] using hvans
  have hres : (handleSaveTemplate (some name) rows s).state.templates
      = s.templates.filter (fun t => t.name != jsTrim name)
          ++ [⟨jsTrim name, (rows.map (·.van)).filter (fun van => jsTrim van != "")⟩] := by
    simp [handleSaveTemplate, hguard, hlen]
  refine ⟨hres, ?_, ?_, ?_⟩
  · rw [hres, List.filter_append, List.filter_filter]
    have h1 : s.templates.filter
        (fun a => (a.name == jsTrim name) && (a.name != jsTrim name)) = [] := by
      refine List.filter_eq_nil_iff.mpr (fun a _ => ?_)
      simp [Bool.and_comm]
    rw [h1]
    simp
  · rw [hres, List.getLast?_concat]
  · rw [hres, List.filter_append, List.filter_filter]
    have h2 : List.filter (fun t => t.name != jsTrim name)
        [(⟨jsTrim name, (rows.map (·.van)).filter (fun van => jsTrim van != "")⟩ : Template)]
        = [] := by
      simp
    rw [h2]
    simp

/-- Concrete working rows for template-store witnesses (one blank van). -/
def wRows : List RowDataV1 := [⟨"r1", "CJB-PON", "1", "3"⟩, ⟨"r2", " ", "", ""⟩]

/-- Concrete rows whose van entries are all blank. -/
def wBlankRows : List RowDataV1 := [⟨"r1", " ", "", ""⟩, ⟨"r2", "", "", ""⟩]

/-- A concrete store state holding two templates, one named `T`. -/
def wState : AppState := ⟨[⟨"T", ["old"]⟩, ⟨"U", ["u"]⟩], none⟩

/-- Witness for `save_template_upsert_append`: saving over the existing
`T` leaves a single `T` template, the new one, at the end of the list. -/
theorem save_template_upsert_append_witness :
    ((handleSaveTemplate (some "T") wRows wState).state.templates.filter
        (fun t => t.name == jsTrim "T")) = [⟨jsTrim "T", ["CJB-PON"]⟩] ∧
    ((handleSaveTemplate (some "T") wRows wState).state.templates).getLast?
        = some ⟨jsTrim "T", ["CJB-PON"]⟩ ∧
    ((handleSaveTemplate (some "T") wRows wState).state.templates.filter
        (fun t => t.name != jsTrim "T")) = [⟨"U", ["u"]⟩] := by
  have h := save_template_upsert_append wState "T" wRows (by decide) (by decide)
      ⟨⟨"T", ["old"]⟩, by decide, by decide⟩
  exact ⟨h.2.1, h.2.2.1, by rw [h.2.2.2]; decide⟩

/-! ## Claim C4 -/

/-- C4 counterexample: a save whose entered name is whitespace-only is
rejected, but no user-facing alert is surfaced — the handler silently does
nothing (the claim asserts a blocking alert for this case).  State and
storage are unchanged. -/
theorem save_blank_name_rejected_without_alert :
    (handleSaveTemplate (some " ") wRows wState).alerts = [] ∧
    jsTrim " " = "" ∧
    (handleSaveTemplate (some " ") wRows wState).state.templates = wState.templates ∧
    (handleSaveTemplate (some " ") wRows wState).state.storage = none := by
  refine ⟨rfl, by decide, rfl, rfl⟩

/-- C4 amended: an invalid save never changes the in-memory collection or
the storage slot.  A cancelled prompt, or a name that trims to empty,
aborts silently with no alert; a van list that filters to empty aborts
with the blocking empty-template alert. -/
theorem save_rejection_semantics (promptResult : Option String)
    (rows : List RowDataV1) (s : AppState) :
    (promptResult = none → handleSaveTemplate promptResult rows s = ⟨s, []⟩) ∧
    (∀ n, promptResult = some n → jsTrim n = "" →
        handleSaveTemplate promptResult rows s = ⟨s, []⟩) ∧
    (∀ n, promptResult = some n → jsTrim n ≠ "" →
        (rows.map (·.van)).filter (fun van => jsTrim van != "") = [] →
        handleSaveTemplate promptResult rows s
          = ⟨s, ["Cannot save an empty template. Please add VANs to the table."]⟩) := by
  refine ⟨?_, ?_, ?_⟩
  · intro h
    subst h
    rfl
  · intro n hn htrim
    subst hn
    have : (n != "" && jsTrim n != "") = false := by
      simp [htrim]
    simp [handleSaveTemplate, this]
  · intro n hn htrim hfilter
    subst hn
    have hne : n ≠ "" := by
      intro h
      subst h
      exact htrim (by decide)
    have hguard : (n != "" && jsTrim n != "") = true := by
      simp [hne, htrim]
    simp [handleSaveTemplate, hguard, hfilter]

/-- Witness for `save_rejection_semantics`: a whitespace-only name is a
silent no-op; a valid name over blank-only vans aborts with the alert. -/
theorem save_rejection_semantics_witness :
    handleSaveTemplate (some " ") wRows wState = ⟨wState, []⟩ ∧
    handleSaveTemplate (some "T") wBlankRows wState
      = ⟨wState, ["Cannot save an empty template. Please add VANs to the table."]⟩ :=
  ⟨(save_rejection_semantics (some " ") wRows wState).2.1 " " rfl (by decide),
   (save_rejection_semantics (some "T") wBlankRows wState).2.2 "T" rfl
      (by decide) (by decide)⟩

/-! ## Claim C5 -/

/-- C5: with a non-empty selection and either an empty working table or a
granted confirmation, loading an existing template replaces the rows
one-for-one: the van projection equals the template's van sequence (so one
row per van, in template order), every `vanOut`, `eWaybill` and `invoice`
field is reset to the empty string, and the i-th row receives the i-th id
from the fresh-id supply (pairwise distinct whenever the supply is
injective); loading a name with no stored template leaves the rows
unchanged. -/
theorem load_template_replaces_rows (templateName : String)
    (confirmAnswer : Bool) (freshId : Nat → String)
    (templates : List Template) (rows : List RowData)
    (hn : templateName ≠ "") (hc : rows = [] ∨ confirmAnswer = true) :
    (∀ t, templates.find? (fun x => x.name == templateName) = some t →
        (handleLoadTemplate templateName confirmAnswer freshId templates rows).map (·.van)
            = t.vans ∧
        (handleLoadTemplate templateName confirmAnswer freshId templates rows).map (·.id)
            = (List.range t.vans.length).map freshId ∧
        (∀ r ∈ handleLoadTemplate templateName confirmAnswer freshId templates rows,
            r.vanOut = "" ∧ r.eWaybill = "" ∧ r.invoice = "") ∧
        (Function.Injective freshId →
            ((handleLoadTemplate templateName confirmAnswer freshId templates rows).map
                (·.id)).Nodup)) ∧
    (templates.find? (fun x => x.name == templateName) = none →
        handleLoadTemplate templateName confirmAnswer freshId templates rows = rows) := by
  have hguard : (rows.length > 0 && !confirmAnswer) = false := by
    rcases hc with h | h <;> simp [h]
  constructor
  · intro t hfind
    have hload : handleLoadTemplate templateName confirmAnswer freshId templates rows
        = t.vans.enum.map (fun p => ⟨freshId p.1, p.2, "", "", ""⟩) := by
      unfold handleLoadTemplate
      rw [if_neg hn, hguard]
      simp [hfind]
    have hids : (handleLoadTemplate templateName confirmAnswer freshId templates rows).map
        (·.id) = (List.range t.vans.length).map freshId := by
      rw [hload, List.map_map]
      have : ((fun r : RowData => r.id) ∘ fun p : Nat × String =>
          (⟨freshId p.1, p.2, "", "", ""⟩ : RowData)) = freshId ∘ Prod.fst := rfl
      rw [this, ← List.map_map, List.enum_map_fst]
    refine ⟨?_, hids, ?_, ?_⟩
    · rw [hload, List.map_map]
      have : ((fun r : RowData => r.van) ∘ fun p : Nat × String =>
          (⟨freshId p.1, p.2, "", "", ""⟩ : RowData)) = Prod.snd := rfl
      rw [this, List.enum_map_snd]
    · intro r hr
      rw [hload] at hr
      obtain ⟨p, _, rfl⟩ := List.mem_map.mp hr
      exact ⟨rfl, rfl, rfl⟩
    · intro hinj
      rw [hids]
      exact (List.nodup_range _).map hinj
  · intro hfind
    unfold handleLoadTemplate
    rw [if_neg hn, hguard]
    simp [hfind]

/-- Concrete fresh-id supply for the load witness. -/
def wFreshId : Nat → String
  | 0 => "id-0"
  | 1 => "id-1"
  | _ => "id-x"

/-- Witness for `load_template_replaces_rows`: loading the stored `T`
template over an empty table yields rows for exactly its vans, with fields
reset and ids drawn in order from the supply. -/
theorem load_template_replaces_rows_witness :
    (handleLoadTemplate "T" true wFreshId [⟨"T", ["a", "b"]⟩] []).map (·.van)
        = ["a", "b"] ∧
    (handleLoadTemplate "T" true wFreshId [⟨"T", ["a", "b"]⟩] []).map (·.id)
        = ["id-0", "id-1"] := by
  have h := (load_template_replaces_rows "T" true wFreshId [⟨"T", ["a", "b"]⟩] []
      (by decide) (Or.inl rfl)).1 ⟨"T", ["a", "b"]⟩ (by decide)
  exact ⟨h.1, by rw [h.2.1]; rfl⟩

/-! ## Claim C9 -/

/-- C9: round trip through persistence.  After a successful save, the
storage slot holds exactly the serialization of the updated collection;
re-initializing the store from that blob (the mount-time load) yields the
very same collection, and it contains a template with the saved trimmed
name and the saved van sequence. -/
theorem save_serialize_reload_roundtrip (s : AppState) (name : String)
    (rows : List RowDataV1)
    (hname : jsTrim name ≠ "")
    (hvans : (rows.map (·.van)).filter (fun van => jsTrim van != "") ≠ []) :
    (handleSaveTemplate (some name) rows s).state.storage
        = some (templatesToJson
            (handleSaveTemplate (some name) rows s).state.templates) ∧
    initTemplates (handleSaveTemplate (some name) rows s).state.storage
        = (handleSaveTemplate (some name) rows s).state.templates ∧
    (⟨jsTrim name, (rows.map (·.van)).filter (fun van => jsTrim van != "")⟩ : Template)
        ∈ initTemplates (handleSaveTemplate (some name) rows s).state.storage := by
  have hne : name ≠ "" := by
    intro h
    subst h
    exact hname (by decide)
  have hguard : (name != "" && jsTrim name != "") = true := by
    simp [hne, hname]
  have hlen : ¬((rows.map (·.van)).filter (fun van => jsTrim van != "")).length = 0 := by
    simpa [List.length_eq_zero] using hvans
  have hstore : (handleSaveTemplate (some name) rows s).state.storage
      = some (templatesToJson
          (handleSaveTemplate (some name) rows s).state.templates) := by
    simp [handleSaveTemplate, hguard, hlen]
  have hinit : initTemplates (handleSaveTemplate (some name) rows s).state.storage
      = (handleSaveTemplate (some name) rows s).state.templates := by
    rw [hstore]
    simp [initTemplates, jsonToTemplates_roundtrip]
  refine ⟨hstore, hinit, ?_⟩
  rw [hinit]
  have hres : (handleSaveTemplate (some name) rows s).state.templates
      = s.templates.filter (fun t => t.name != jsTrim name)
          ++ [⟨jsTrim name, (rows.map (·.van)).filter (fun van => jsTrim van != "")⟩] := by
    simp [handleSaveTemplate, hguard, hlen]
  rw [hres]
  simp

/-- Witness for `save_serialize_reload_roundtrip`: the saved `T` template
survives serialization and re-initialization. -/
theorem save_serialize_reload_roundtrip_witness :
    (⟨jsTrim "T", ["CJB-PON"]⟩ : Template)
        ∈ initTemplates (handleSaveTemplate (some "T") wRows wState).state.storage :=
  (save_serialize_reload_roundtrip wState "T" wRows (by decide) (by decide)).2.2

/-! ## Claim C10 -/

/-- C10: the three `handleSaveTemplate` implementations agree.  On any
prior state, any prompt result, and any row lists with identical van
projections, all three produce the same updated template collection and
the same serialized storage blob, and their storage keys are the same
string. -/
theorem save_template_three_versions_agree (promptResult : Option String)
    (rowsA : List RowDataV1) (rowsB rowsC : List RowData) (s : AppState)
    (hAB : rowsA.map (·.van) = rowsB.map (·.van))
    (hBC : rowsB.map (·.van) = rowsC.map (·.van)) :
    (handleSaveTemplate promptResult rowsA s).state
        = (handleSaveTemplateV2 promptResult rowsB s).state ∧
    (handleSaveTemplateV2 promptResult rowsB s).state
        = (handleSaveTemplateV3 promptResult rowsC s).state ∧
    TEMPLATES_STORAGE_KEY = TEMPLATES_STORAGE_KEY_V2 ∧
    TEMPLATES_STORAGE_KEY_V2 = TEMPLATES_STORAGE_KEY_V3 := by
  refine ⟨?_, ?_, rfl, rfl⟩
  · unfold handleSaveTemplate handleSaveTemplateV2
    cases promptResult with
    | none => rfl
    | some n => rw [hAB]
  · unfold handleSaveTemplateV2 handleSaveTemplateV3
    cases promptResult with
    | none => rfl
    | some n =>
        rw [hBC]
        by_cases hg : (n != "" && jsTrim n != "") = true
        · simp only [if_pos hg]
          by_cases hv :
              ((rowsC.map (·.van)).filter (fun van => jsTrim van != "")).length = 0
          · simp only [if_pos hv]
          · simp only [if_neg hv]
        · simp only [if_neg hg]

/-- Concrete second-variant rows matching `wRows` van-for-van. -/
def wRowsV23 : List RowData := [⟨"s1", "CJB-PON", "6:30 PM", "9", "2"⟩, ⟨"s2", " ", "", "", ""⟩]

/-- Witness for `save_template_three_versions_agree` on concrete matching
rows: all three versions produce the same state. -/
theorem save_template_three_versions_agree_witness :
    (handleSaveTemplate (some "T") wRows wState).state
        = (handleSaveTemplateV2 (some "T") wRowsV23 wState).state ∧
    (handleSaveTemplateV2 (some "T") wRowsV23 wState).state
        = (handleSaveTemplateV3 (some "T") wRowsV23 wState).state := by
  have h := save_template_three_versions_agree (some "T") wRows wRowsV23 wRowsV23
      wState (by decide) rfl
  exact ⟨h.1, h.2.1⟩
